import Mathlib

/-!
Shallow embedding of the cross-service statistics aggregator of
`campaign-service` (`src/lib/service-client.ts`), together with proofs of
the spec-level properties of its aggregation, merge and error-collection
logic.

Modelling conventions:
* A counter inside an upstream JSON payload is an `Option Nat`: `none`
  models a field that is absent from the payload (the TypeScript code
  casts `data.stats as T` without validation, so any field may be
  missing at runtime).  JavaScript addition on a missing operand yields
  `NaN`; `jsAdd` therefore returns `none` whenever an operand is `none`,
  and `none` in a merged-stats field models a `NaN` result.
* The observable behaviour of one `fetch` call is a `FetchBehavior`:
  either the promise rejects with some JavaScript value, or it resolves
  with an HTTP status and a parsed JSON body whose `stats` field is
  present or absent/null.  `Response.ok` is `200 ≤ status ≤ 299`.
* The network-facing entry points become pure functions of the run-id
  list and the upstream behaviours; they additionally report how many
  upstream calls they issued, so that the zero-network-calls contracts
  are statable.
-/

namespace CampaignService

/-- A JSON counter field: `some n` when the field is present with value
`n`, `none` when the field is absent from the payload. -/
abbrev JsNum := Option Nat

/-- JavaScript `+` on possibly-missing counters: adding `undefined`
produces `NaN`, which then contaminates every further sum.  `none` on
the result side models `NaN`. -/
def jsAdd : JsNum → JsNum → JsNum
  | some a, some b => some (a + b)
  | _, _ => none

/-- Payload of the apollo upstream (`interface ApolloStats`). -/
structure ApolloStats where
  leadsFound : JsNum
  searchesCount : JsNum
  totalPeopleFromSearches : JsNum
deriving DecidableEq

/-- Payload of the email-generation upstream (`interface EmailGenStats`). -/
structure EmailGenStats where
  emailsGenerated : JsNum
deriving DecidableEq

/-- Payload of either email-delivery upstream
(`interface EmailSendingStats`). -/
structure EmailSendingStats where
  emailsSent : JsNum
  emailsOpened : JsNum
  emailsClicked : JsNum
  emailsReplied : JsNum
  emailsBounced : JsNum
  repliesWillingToMeet : JsNum
  repliesInterested : JsNum
  repliesNotInterested : JsNum
  repliesOutOfOffice : JsNum
  repliesUnsubscribe : JsNum
deriving DecidableEq

/-- The normalized output record (`interface AggregatedStats`).  A field
holds `none` exactly when the JavaScript computation produced `NaN`. -/
structure AggregatedStats where
  leadsFound : JsNum
  emailsGenerated : JsNum
  emailsSent : JsNum
  emailsOpened : JsNum
  emailsClicked : JsNum
  emailsReplied : JsNum
  emailsBounced : JsNum
  repliesWillingToMeet : JsNum
  repliesInterested : JsNum
  repliesNotInterested : JsNum
  repliesOutOfOffice : JsNum
  repliesUnsubscribe : JsNum
deriving DecidableEq

/-- Embeds `interface StatsError`. -/
structure StatsError where
  service : String
  error : String
deriving DecidableEq

/-- Embeds `interface AggregatedStatsResult`. -/
structure AggregatedStatsResult where
  stats : AggregatedStats
  errors : List StatsError
deriving DecidableEq

/-- Embeds `type ServiceResult<T>`: the tagged outcome of one upstream call. -/
inductive ServiceResult (T : Type) where
  | ok (data : T)
  | err (service : String) (error : String)
deriving DecidableEq

/-- The `ok` discriminant of a `ServiceResult`. -/
def ServiceResult.isOk {T : Type} : ServiceResult T → Bool
  | .ok _ => true
  | .err _ _ => false

/-- A JavaScript value thrown while fetching or parsing: either an
`Error` instance carrying a message and, possibly, a `cause.code`
string, or a thrown non-`Error` value. -/
inductive JsThrown where
  | errorObj (message : String) (causeCode : Option String)
  | nonError
deriving DecidableEq

/-- The observable behaviour of one `fetch` call together with the
parsing of its body: the promise rejects with a thrown value, or it
resolves with an HTTP status and a body whose `stats` field is either
present (`some`) or absent/null (`none`). -/
inductive FetchBehavior (T : Type) where
  | throws (e : JsThrown)
  | respond (status : Nat) (stats : Option T)
deriving DecidableEq

/-- The `Response.ok` predicate of the WHATWG fetch API: status in the range 200-299. -/
def statusOk (status : Nat) : Bool :=
  decide (200 ≤ status) && decide (status ≤ 299)

/-- The reason string computed in the `catch` branch of `fetchStats`:
`"connection refused"` when the thrown error's cause code is
`ECONNREFUSED`, else the error's own message, else `"unknown error"`
for a thrown non-`Error` value. -/
def thrownMessage : JsThrown → String
  | .errorObj msg code =>
      if code = some "ECONNREFUSED" then "connection refused" else msg
  | .nonError => "unknown error"

/-- Embeds `fetchStats` of `service-client.ts` as a pure classifier of the
observed fetch behaviour.  Every outcome becomes a `ServiceResult`;
nothing is thrown and exactly one fetch behaviour is consumed. -/
def fetchStats (T : Type) (serviceName : String)
    (beh : FetchBehavior T) : ServiceResult T :=
  match beh with
  | .throws e => .err serviceName (thrownMessage e)
  | .respond status stats =>
      if !statusOk status then
        .err serviceName ("HTTP " ++ toString status)
      else
        match stats with
        | none => .err serviceName "no stats in response"
        | some d => .ok d

/-- Embeds `const EMPTY_SENDING_STATS`. -/
def EMPTY_SENDING_STATS : EmailSendingStats :=
  ⟨some 0, some 0, some 0, some 0, some 0,
   some 0, some 0, some 0, some 0, some 0⟩

/-- Embeds `addSendingStats`: fieldwise JavaScript addition of the two
delivery-provider payloads. -/
def addSendingStats (a b : EmailSendingStats) : EmailSendingStats :=
  ⟨jsAdd a.emailsSent b.emailsSent,
   jsAdd a.emailsOpened b.emailsOpened,
   jsAdd a.emailsClicked b.emailsClicked,
   jsAdd a.emailsReplied b.emailsReplied,
   jsAdd a.emailsBounced b.emailsBounced,
   jsAdd a.repliesWillingToMeet b.repliesWillingToMeet,
   jsAdd a.repliesInterested b.repliesInterested,
   jsAdd a.repliesNotInterested b.repliesNotInterested,
   jsAdd a.repliesOutOfOffice b.repliesOutOfOffice,
   jsAdd a.repliesUnsubscribe b.repliesUnsubscribe⟩

/-- The four upstream behaviours observed by one aggregation call, in
dispatch order: apollo, emailgen, postmark, instantly. -/
structure UpstreamEnv where
  apollo : FetchBehavior ApolloStats
  emailgen : FetchBehavior EmailGenStats
  postmark : FetchBehavior EmailSendingStats
  instantly : FetchBehavior EmailSendingStats

/-- The error entries pushed for one upstream outcome: one entry when
the outcome is a failure, none when it succeeded. -/
def errorOf {T : Type} : ServiceResult T → List StatsError
  | .ok _ => []
  | .err s e => [⟨s, e⟩]

/-- An aggregation call's result together with the number of upstream
calls it issued. -/
structure AggregationRun where
  result : AggregatedStatsResult
  upstreamCalls : Nat
deriving DecidableEq

/-- The all-zero `AggregatedStats` built at the top of
`getAggregatedStats` (`const emptyStats`). -/
def emptyStats : AggregatedStats :=
  ⟨some 0, some 0, some 0, some 0, some 0, some 0, some 0,
   some 0, some 0, some 0, some 0, some 0⟩

/-- Embeds `getAggregatedStats`: short-circuits on an empty run-id list,
otherwise dispatches the four upstream calls, collects one error per
failure in dispatch order, and merges the payloads (delivery providers
additively, with `EMPTY_SENDING_STATS` substituted for a failed one). -/
def getAggregatedStats (runIds : List String) (env : UpstreamEnv) :
    AggregationRun :=
  if runIds = [] then
    ⟨⟨emptyStats, []⟩, 0⟩
  else
    let apolloResult := fetchStats ApolloStats "apollo" env.apollo
    let emailGenResult := fetchStats EmailGenStats "emailgen" env.emailgen
    let postmarkResult := fetchStats EmailSendingStats "postmark" env.postmark
    let instantlyResult := fetchStats EmailSendingStats "instantly" env.instantly
    let errors := errorOf apolloResult ++ errorOf emailGenResult ++
      errorOf postmarkResult ++ errorOf instantlyResult
    let postmarkData := match postmarkResult with
      | .ok d => d
      | .err _ _ => EMPTY_SENDING_STATS
    let instantlyData := match instantlyResult with
      | .ok d => d
      | .err _ _ => EMPTY_SENDING_STATS
    let emailStats := addSendingStats postmarkData instantlyData
    ⟨⟨⟨some (match apolloResult with
          | .ok d => d.leadsFound.getD 0
          | .err _ _ => 0),
       some (match emailGenResult with
          | .ok d => d.emailsGenerated.getD 0
          | .err _ _ => 0),
       emailStats.emailsSent,
       emailStats.emailsOpened,
       emailStats.emailsClicked,
       emailStats.emailsReplied,
       emailStats.emailsBounced,
       emailStats.repliesWillingToMeet,
       emailStats.repliesInterested,
       emailStats.repliesNotInterested,
       emailStats.repliesOutOfOffice,
       emailStats.repliesUnsubscribe⟩,
      errors⟩, 4⟩

/-- Embeds `interface ModelStats`. -/
structure ModelStats where
  model : String
  count : Nat
  runIds : List String
deriving DecidableEq

/-- Embeds `interface ModelStatsResult`. -/
structure ModelStatsResult where
  stats : List ModelStats
  errors : List StatsError
deriving DecidableEq

/-- A by-model call's result together with the number of upstream calls
it issued. -/
structure ModelStatsRun where
  result : ModelStatsResult
  upstreamCalls : Nat
deriving DecidableEq

/-- Embeds `getStatsByModel`: short-circuits on an empty run-id list, otherwise
issues one call to the email-generation service.  A thrown error or a
non-success status yields one `StatsError` for `"emailgen"`; a success
response yields `data.stats || []` with no error (a missing/null
`stats` field falls back to the empty list silently). -/
def getStatsByModel (runIds : List String)
    (beh : FetchBehavior (List ModelStats)) : ModelStatsRun :=
  if runIds = [] then
    ⟨⟨[], []⟩, 0⟩
  else
    match beh with
    | .throws e => ⟨⟨[], [⟨"emailgen", thrownMessage e⟩]⟩, 1⟩
    | .respond status stats =>
        if !statusOk status then
          ⟨⟨[], [⟨"emailgen", "HTTP " ++ toString status⟩]⟩, 1⟩
        else
          ⟨⟨stats.getD [], []⟩, 1⟩

/-- Embeds `interface LeadData` (the fields the company aggregation reads). -/
structure LeadData where
  id : String
  organizationName : Option String
  organizationDomain : Option String
  organizationIndustry : Option String
  organizationSize : Option String
  enrichmentRunId : Option String
deriving DecidableEq

/-- JavaScript truthiness of a nullable string: `null` and the empty
string are falsy. -/
def truthy : Option String → Bool
  | none => false
  | some s => !(s = "")

/-- JavaScript `v || null` on a nullable string: a falsy value (null or
empty string) becomes `null`. -/
def orNull (v : Option String) : Option String :=
  if truthy v then v else none

/-- One value of the `companyMap` in `aggregateCompaniesFromLeads`,
keyed by its `name`. -/
structure CompanyEntry where
  name : String
  domain : Option String
  industry : Option String
  employeeCount : Option String
  leadsCount : Nat
  enrichmentRunIds : List String
deriving DecidableEq

/-- Embeds `interface CompanyData`. -/
structure CompanyData where
  id : String
  name : String
  domain : Option String
  industry : Option String
  employeeCount : Option String
  leadsCount : Nat
  enrichmentRunIds : List String
deriving DecidableEq

/-- The run-id contribution of one lead: its `enrichmentRunId` when
truthy (pushed by `if (lead.enrichmentRunId)`), nothing otherwise. -/
def runIdOf (lead : LeadData) : List String :=
  if truthy lead.enrichmentRunId then [lead.enrichmentRunId.getD ""] else []

/-- The organization name of a lead, read as a plain string (the `Map`
key `orgName`; only used behind the truthiness guard). -/
def nameOf (l : LeadData) : String := l.organizationName.getD ""

/-- The fresh map entry created for the first lead of an organization. -/
def freshEntry (orgName : String) (lead : LeadData) : CompanyEntry :=
  ⟨orgName, orNull lead.organizationDomain, orNull lead.organizationIndustry,
   orNull lead.organizationSize, 1, runIdOf lead⟩

/-- The in-place update applied to an existing map entry for one more
lead of the same organization. -/
def bumpEntry (e : CompanyEntry) (lead : LeadData) : CompanyEntry :=
  { e with leadsCount := e.leadsCount + 1,
           enrichmentRunIds := e.enrichmentRunIds ++ runIdOf lead }

/-- One iteration of the lead loop of `aggregateCompaniesFromLeads` on
the insertion-ordered map (a JavaScript `Map` keeps keys in insertion
order): a falsy organization name is skipped, an existing entry is
updated in place, a new one is appended. -/
def insertLead (acc : List CompanyEntry) (lead : LeadData) :
    List CompanyEntry :=
  if truthy lead.organizationName then
    if acc.any (fun e => e.name = nameOf lead) then
      acc.map (fun e => if e.name = nameOf lead then bumpEntry e lead else e)
    else
      acc ++ [freshEntry (nameOf lead) lead]
  else acc

/-- The final `Array.from(companyMap.entries()).map(...)` step: attach
`company-<index>` identifiers in map order. -/
def attachIds (entries : List CompanyEntry) : List CompanyData :=
  entries.enum.map (fun p =>
    ⟨"company-" ++ toString p.1, p.2.name, p.2.domain, p.2.industry,
     p.2.employeeCount, p.2.leadsCount, p.2.enrichmentRunIds⟩)

/-- Embeds `aggregateCompaniesFromLeads`. -/
def aggregateCompaniesFromLeads (leads : List LeadData) : List CompanyData :=
  attachIds (leads.foldl insertLead [])

/-! ### Reference definitions (spec-side)

The definitions below restate the spec's intended semantics in their own
words; the theorems compare the embedded code against them. -/

/-- Spec-side predicate: every field of the normalized record is the
number zero. -/
def AggregatedStats.isAllZero (s : AggregatedStats) : Prop :=
  s.leadsFound = some 0 ∧ s.emailsGenerated = some 0 ∧
  s.emailsSent = some 0 ∧ s.emailsOpened = some 0 ∧
  s.emailsClicked = some 0 ∧ s.emailsReplied = some 0 ∧
  s.emailsBounced = some 0 ∧ s.repliesWillingToMeet = some 0 ∧
  s.repliesInterested = some 0 ∧ s.repliesNotInterested = some 0 ∧
  s.repliesOutOfOffice = some 0 ∧ s.repliesUnsubscribe = some 0

instance (s : AggregatedStats) : Decidable s.isAllZero := by
  unfold AggregatedStats.isAllZero; infer_instance

/-- A delivery-provider payload in which all ten counters are present,
given by plain numbers. -/
structure SendingNat where
  emailsSent : Nat
  emailsOpened : Nat
  emailsClicked : Nat
  emailsReplied : Nat
  emailsBounced : Nat
  repliesWillingToMeet : Nat
  repliesInterested : Nat
  repliesNotInterested : Nat
  repliesOutOfOffice : Nat
  repliesUnsubscribe : Nat
deriving DecidableEq

/-- Embed a full delivery payload into the JSON payload type. -/
def SendingNat.toPayload (s : SendingNat) : EmailSendingStats :=
  ⟨some s.emailsSent, some s.emailsOpened, some s.emailsClicked,
   some s.emailsReplied, some s.emailsBounced,
   some s.repliesWillingToMeet, some s.repliesInterested,
   some s.repliesNotInterested, some s.repliesOutOfOffice,
   some s.repliesUnsubscribe⟩

/-- A successful upstream behaviour: HTTP 200 with a present `stats`
field. -/
def okBeh {T : Type} (d : T) : FetchBehavior T := .respond 200 (some d)

/-- A failing upstream behaviour: HTTP 500. -/
def failBeh {T : Type} : FetchBehavior T := .respond 500 none

/-- The environment in which all four upstreams succeed with full
payloads: apollo reports `a` leads found, emailgen `g` emails
generated, and the delivery providers report `p` and `i`. -/
def successEnv (a g : Nat) (p i : SendingNat) : UpstreamEnv :=
  ⟨okBeh ⟨some a, some 0, some 0⟩, okBeh ⟨some g⟩,
   okBeh p.toPayload, okBeh i.toPayload⟩

/-- The environment selected by four success flags: a provider with a
`true` flag succeeds with its full payload, a provider with a `false`
flag fails with HTTP 500. -/
def flagEnv (aOk eOk pOk iOk : Bool) (a g : Nat) (p i : SendingNat) :
    UpstreamEnv :=
  ⟨if aOk then okBeh ⟨some a, some 0, some 0⟩ else failBeh,
   if eOk then okBeh ⟨some g⟩ else failBeh,
   if pOk then okBeh p.toPayload else failBeh,
   if iOk then okBeh i.toPayload else failBeh⟩

/-- Spec-side reference merge: each single-source field is that
provider's value when it succeeded and zero otherwise; each
email-sending field is the sum of the two delivery providers'
contributions, a failed provider contributing zero. -/
def refMergeStats (aOk eOk pOk iOk : Bool) (a g : Nat) (p i : SendingNat) :
    AggregatedStats :=
  ⟨some (if aOk then a else 0),
   some (if eOk then g else 0),
   some ((if pOk then p.emailsSent else 0) + (if iOk then i.emailsSent else 0)),
   some ((if pOk then p.emailsOpened else 0) + (if iOk then i.emailsOpened else 0)),
   some ((if pOk then p.emailsClicked else 0) + (if iOk then i.emailsClicked else 0)),
   some ((if pOk then p.emailsReplied else 0) + (if iOk then i.emailsReplied else 0)),
   some ((if pOk then p.emailsBounced else 0) + (if iOk then i.emailsBounced else 0)),
   some ((if pOk then p.repliesWillingToMeet else 0) + (if iOk then i.repliesWillingToMeet else 0)),
   some ((if pOk then p.repliesInterested else 0) + (if iOk then i.repliesInterested else 0)),
   some ((if pOk then p.repliesNotInterested else 0) + (if iOk then i.repliesNotInterested else 0)),
   some ((if pOk then p.repliesOutOfOffice else 0) + (if iOk then i.repliesOutOfOffice else 0)),
   some ((if pOk then p.repliesUnsubscribe else 0) + (if iOk then i.repliesUnsubscribe else 0))⟩

/-- The error entry of one upstream outcome, if any. -/
def ServiceResult.errEntry {T : Type} : ServiceResult T → Option StatsError
  | .ok _ => none
  | .err s e => some ⟨s, e⟩

/-- The four upstream outcomes' error entries in dispatch order:
apollo, emailgen, postmark, instantly. -/
def upstreamErrEntries (env : UpstreamEnv) : List (Option StatsError) :=
  [(fetchStats ApolloStats "apollo" env.apollo).errEntry,
   (fetchStats EmailGenStats "emailgen" env.emailgen).errEntry,
   (fetchStats EmailSendingStats "postmark" env.postmark).errEntry,
   (fetchStats EmailSendingStats "instantly" env.instantly).errEntry]

/-- The four upstreams' success flags paired with their names, in
dispatch order. -/
def upstreamOkFlags (env : UpstreamEnv) : List (Bool × String) :=
  [((fetchStats ApolloStats "apollo" env.apollo).isOk, "apollo"),
   ((fetchStats EmailGenStats "emailgen" env.emailgen).isOk, "emailgen"),
   ((fetchStats EmailSendingStats "postmark" env.postmark).isOk, "postmark"),
   ((fetchStats EmailSendingStats "instantly" env.instantly).isOk, "instantly")]

/-- The leads whose organization name is truthy (neither null nor
empty); only these take part in the company aggregation. -/
def validLeads (leads : List LeadData) : List LeadData :=
  leads.filter (fun l => truthy l.organizationName)

/-- The distinct elements of a list of strings, in first-occurrence
order. -/
def firstOcc (xs : List String) : List String :=
  xs.foldl (fun acc n => if n ∈ acc then acc else acc ++ [n]) []

/-- Spec-side reference entry for one organization: given the valid
leads bearing that name in input order, the company's descriptive
fields come from the first such lead (empty strings normalized to
null), `leadsCount` is the number of such leads, and
`enrichmentRunIds` collects their truthy run identifiers in order. -/
def refEntry (name : String) (ls : List LeadData) : CompanyEntry :=
  match ls with
  | [] => ⟨name, none, none, none, 0, []⟩
  | first :: _ =>
      ⟨name, orNull first.organizationDomain,
       orNull first.organizationIndustry, orNull first.organizationSize,
       ls.length, (ls.map runIdOf).flatten⟩

/-- Reference aggregation over an already-filtered list of leads: one
entry per distinct organization name in first-occurrence order. -/
def refEntriesV (vs : List LeadData) : List CompanyEntry :=
  (firstOcc (vs.map nameOf)).map
    (fun n => refEntry n (vs.filter (fun l => nameOf l = n)))

/-- Spec-side reference for `aggregateCompaniesFromLeads`: drop leads
with a null or empty organization name, then build one company per
distinct remaining name. -/
def refCompanies (leads : List LeadData) : List CompanyData :=
  attachIds (refEntriesV (validLeads leads))

/-! ### Helper lemmas -/

/-- Every `fetchStats` call either succeeds with a payload or fails
with an error entry carrying the upstream's own service name. -/
theorem fetchStats_ok_or_err (T : Type) (n : String) (b : FetchBehavior T) :
    (∃ d, fetchStats T n b = .ok d) ∨ (∃ m, fetchStats T n b = .err n m) := by
  cases b with
  | throws e => exact Or.inr ⟨thrownMessage e, rfl⟩
  | respond status stats =>
      cases hs : statusOk status with
      | false => exact Or.inr ⟨"HTTP " ++ toString status, by simp [fetchStats, hs]⟩
      | true =>
          cases stats with
          | none => exact Or.inr ⟨"no stats in response", by simp [fetchStats, hs]⟩
          | some d => exact Or.inl ⟨d, by simp [fetchStats, hs]⟩

/-- A `fetchStats` call whose outcome is not a success is an error
entry named after the upstream. -/
theorem fetchStats_not_ok {T : Type} {n : String} {b : FetchBehavior T}
    (h : (fetchStats T n b).isOk = false) :
    ∃ m, fetchStats T n b = .err n m := by
  rcases fetchStats_ok_or_err T n b with ⟨d, hd⟩ | hm
  · rw [hd] at h; simp [ServiceResult.isOk] at h
  · exact hm

/-- Evaluates `fetchStats` on a 200 response with a present `stats` field. -/
theorem fetchStats_okBeh (T : Type) (n : String) (d : T) :
    fetchStats T n (okBeh d) = .ok d := rfl

/-- Evaluates `fetchStats` on an HTTP 500 response. -/
theorem fetchStats_failBeh (T : Type) (n : String) :
    fetchStats T n failBeh = .err n "HTTP 500" := rfl

/-- An HTTP 200 status is a success status. -/
theorem statusOk_200 : statusOk 200 = true := rfl

/-! ### Claims -/

/-- C2: for the empty run-id list, `getAggregatedStats` returns a
result whose stats record has every field equal to zero and whose
errors list is empty, and it issues zero upstream calls. -/
theorem claim_C2_empty_short_circuit (env : UpstreamEnv) :
    (getAggregatedStats [] env).result.stats.isAllZero ∧
    (getAggregatedStats [] env).result.errors = [] ∧
    (getAggregatedStats [] env).upstreamCalls = 0 := by
  refine ⟨?_, rfl, rfl⟩
  simp [getAggregatedStats, emptyStats, AggregatedStats.isAllZero]

/-- C6: `fetchStats` classifies every outcome instead of raising: a
non-success HTTP status becomes `HTTP <status>`, a thrown error whose
cause code is `ECONNREFUSED` becomes `connection refused`, any other
thrown `Error` contributes its own message, and a thrown non-`Error`
value becomes `unknown error`.  The embedding consumes exactly one
fetch behaviour per call, so there is a single attempt and no retry. -/
theorem claim_C6_fetch_classification (T : Type) (name msg : String)
    (code : Option String) (status : Nat) (body : Option T) :
    (statusOk status = false →
      fetchStats T name (.respond status body) =
        .err name ("HTTP " ++ toString status)) ∧
    (fetchStats T name (.throws (.errorObj msg (some "ECONNREFUSED"))) =
      .err name "connection refused") ∧
    (code ≠ some "ECONNREFUSED" →
      fetchStats T name (.throws (.errorObj msg code)) = .err name msg) ∧
    (fetchStats T name (.throws .nonError) = .err name "unknown error") := by
  refine ⟨?_, ?_, ?_, rfl⟩
  · intro h; simp [fetchStats, h]
  · simp [fetchStats, thrownMessage]
  · intro h; simp [fetchStats, thrownMessage, h]

/-- Witness for C6 at a 404 response, a connection-refused error, a
timeout error and a thrown non-`Error` value. -/
theorem claim_C6_witness :
    statusOk 404 = false ∧
    fetchStats EmailGenStats "emailgen" (.respond 404 none) =
      .err "emailgen" "HTTP 404" ∧
    fetchStats EmailGenStats "emailgen"
      (.throws (.errorObj "fetch failed" (some "ECONNREFUSED"))) =
      .err "emailgen" "connection refused" ∧
    fetchStats EmailGenStats "emailgen"
      (.throws (.errorObj "fetch failed" (some "ETIMEDOUT"))) =
      .err "emailgen" "fetch failed" ∧
    fetchStats EmailGenStats "emailgen" (.throws .nonError) =
      .err "emailgen" "unknown error" := by
  have h := claim_C6_fetch_classification EmailGenStats "emailgen"
    "fetch failed" (some "ETIMEDOUT") 404 none
  exact ⟨by decide, h.1 (by decide), h.2.1, h.2.2.1 (by decide), h.2.2.2⟩

/-- C5 counterexample: `getStatsByModel` with a non-empty run-id list
and a 200 response whose `stats` field is absent/null returns empty
stats with an EMPTY errors list — a silent empty success, not a
`no stats in response` failure as the claim states for the by-model
variant. -/
theorem claim_C5_counterexample :
    (getStatsByModel ["run-1"] (.respond 200 none)).result.errors = [] ∧
    (getStatsByModel ["run-1"] (.respond 200 none)).result.stats = [] ∧
    (getStatsByModel ["run-1"] (.respond 200 none)).upstreamCalls = 1 := by
  decide

/-- C5 (amended): for the four aggregated-stats upstreams, a success
HTTP status with an absent/null `stats` field is classified as a
failure with reason `no stats in response`, contributing exactly one
`StatsError` for that provider and a zero contribution to the merged
stats; `getStatsByModel`, however, treats the same situation as a
silent empty success with no error. -/
theorem claim_C5_amended (T : Type) (name : String) (status : Nat)
    (r : String) (rs : List String) (a g : Nat) (p i : SendingNat) :
    (statusOk status = true →
      fetchStats T name (.respond status none) =
        .err name "no stats in response") ∧
    (statusOk status = true →
      getStatsByModel (r :: rs) (.respond status none) = ⟨⟨[], []⟩, 1⟩) ∧
    ((getAggregatedStats (r :: rs)
        { successEnv a g p i with postmark := .respond 200 none }).result.errors =
      [⟨"postmark", "no stats in response"⟩] ∧
     (getAggregatedStats (r :: rs)
        { successEnv a g p i with postmark := .respond 200 none }).result.stats.emailsSent =
      some i.emailsSent) := by
  refine ⟨?_, ?_, ?_, ?_⟩
  · intro h; simp [fetchStats, h]
  · intro h
    unfold getStatsByModel
    rw [if_neg (List.cons_ne_nil r rs)]
    simp [h]
  · unfold getAggregatedStats
    rw [if_neg (List.cons_ne_nil r rs)]
    simp [successEnv, okBeh, fetchStats, statusOk_200, errorOf]
  · unfold getAggregatedStats
    rw [if_neg (List.cons_ne_nil r rs)]
    simp [successEnv, okBeh, fetchStats, statusOk_200, addSendingStats,
      jsAdd, EMPTY_SENDING_STATS, SendingNat.toPayload]

/-- Witness for C5 (amended) at status 200 with concrete payloads. -/
theorem claim_C5_witness :
    statusOk 200 = true ∧
    fetchStats EmailSendingStats "postmark" (.respond 200 none) =
      .err "postmark" "no stats in response" ∧
    getStatsByModel ["run-1"] (.respond 200 none) = ⟨⟨[], []⟩, 1⟩ ∧
    (getAggregatedStats ["run-1"]
        { successEnv 10 8 ⟨5, 3, 1, 1, 0, 1, 0, 0, 0, 0⟩
            ⟨4, 2, 1, 0, 1, 0, 0, 0, 0, 0⟩ with
          postmark := .respond 200 none }).result.stats.emailsSent =
      some 4 := by
  have h := claim_C5_amended EmailSendingStats "postmark" 200 "run-1" []
    10 8 ⟨5, 3, 1, 1, 0, 1, 0, 0, 0, 0⟩ ⟨4, 2, 1, 0, 1, 0, 0, 0, 0, 0⟩
  exact ⟨by decide, h.1 (by decide), h.2.1 (by decide), h.2.2.2⟩

/-- C9: `getStatsByModel` with an empty run-id list issues zero calls
and returns empty stats and empty errors; with a non-empty list, a
failing HTTP call (non-success status or thrown transport error)
yields empty stats and exactly one `StatsError` naming `emailgen`. -/
theorem claim_C9_by_model (beh : FetchBehavior (List ModelStats))
    (r : String) (rs : List String) (status : Nat)
    (body : Option (List ModelStats)) (e : JsThrown) :
    getStatsByModel [] beh = ⟨⟨[], []⟩, 0⟩ ∧
    (statusOk status = false →
      getStatsByModel (r :: rs) (.respond status body) =
        ⟨⟨[], [⟨"emailgen", "HTTP " ++ toString status⟩]⟩, 1⟩) ∧
    ((getStatsByModel (r :: rs) (.throws e)).result.stats = [] ∧
     (getStatsByModel (r :: rs) (.throws e)).result.errors.map
        (fun x => x.service) = ["emailgen"]) := by
  refine ⟨rfl, ?_, ?_⟩
  · intro h
    unfold getStatsByModel
    rw [if_neg (List.cons_ne_nil r rs)]
    simp [h]
  · unfold getStatsByModel
    rw [if_neg (List.cons_ne_nil r rs)]
    simp

/-- Witness for C9 at an HTTP 500 failure. -/
theorem claim_C9_witness :
    statusOk 500 = false ∧
    getStatsByModel ["run-1"] (.respond 500 none) =
      ⟨⟨[], [⟨"emailgen", "HTTP 500"⟩]⟩, 1⟩ := by
  have h := claim_C9_by_model (.respond 500 none) "run-1" [] 500 none .nonError
  exact ⟨by decide, h.2.1 (by decide)⟩

/-- C1: the aggregation result's `errors` list is empty iff every
dispatched upstream call succeeded (vacuously so when the empty run-id
list dispatches none), and when all four upstreams fail the function
still returns normally with four errors and all-zero stats.  The
result type of the embedding makes `stats` present (never null) and
the function total by construction. -/
theorem claim_C1_result_invariants (runIds : List String) (env : UpstreamEnv) :
    ((getAggregatedStats runIds env).result.errors = [] ↔
      (runIds = [] ∨
        ((fetchStats ApolloStats "apollo" env.apollo).isOk = true ∧
         (fetchStats EmailGenStats "emailgen" env.emailgen).isOk = true ∧
         (fetchStats EmailSendingStats "postmark" env.postmark).isOk = true ∧
         (fetchStats EmailSendingStats "instantly" env.instantly).isOk = true))) ∧
    (runIds ≠ [] →
      (fetchStats ApolloStats "apollo" env.apollo).isOk = false →
      (fetchStats EmailGenStats "emailgen" env.emailgen).isOk = false →
      (fetchStats EmailSendingStats "postmark" env.postmark).isOk = false →
      (fetchStats EmailSendingStats "instantly" env.instantly).isOk = false →
      (getAggregatedStats runIds env).result.errors.length = 4 ∧
      (getAggregatedStats runIds env).result.stats.isAllZero) := by
  cases runIds with
  | nil =>
      constructor
      · simp [getAggregatedStats]
      · intro h; exact absurd rfl h
  | cons r rs =>
      rcases fetchStats_ok_or_err ApolloStats "apollo" env.apollo with
        ⟨da, ha⟩ | ⟨ma, ha⟩ <;>
      rcases fetchStats_ok_or_err EmailGenStats "emailgen" env.emailgen with
        ⟨de, he⟩ | ⟨mg, he⟩ <;>
      rcases fetchStats_ok_or_err EmailSendingStats "postmark" env.postmark with
        ⟨dp, hp⟩ | ⟨mp, hp⟩ <;>
      rcases fetchStats_ok_or_err EmailSendingStats "instantly" env.instantly with
        ⟨di, hi⟩ | ⟨mi, hi⟩ <;>
      exact ⟨by
        unfold getAggregatedStats
        rw [if_neg (List.cons_ne_nil r rs)]
        simp [ha, he, hp, hi, errorOf, ServiceResult.isOk],
      by
        intro hne h1 h2 h3 h4
        first
          | (rw [ha] at h1; simp [ServiceResult.isOk] at h1; done)
          | (rw [he] at h2; simp [ServiceResult.isOk] at h2; done)
          | (rw [hp] at h3; simp [ServiceResult.isOk] at h3; done)
          | (rw [hi] at h4; simp [ServiceResult.isOk] at h4; done)
          | (unfold getAggregatedStats
             rw [if_neg (List.cons_ne_nil r rs)]
             simp [ha, he, hp, hi, errorOf, addSendingStats, jsAdd,
               EMPTY_SENDING_STATS, AggregatedStats.isAllZero])⟩

/-- Witness for C1: all four upstreams fail with HTTP 500 on a
non-empty run-id list. -/
theorem claim_C1_witness :
    (getAggregatedStats ["run-1"] ⟨failBeh, failBeh, failBeh, failBeh⟩).result.errors.length = 4 ∧
    (getAggregatedStats ["run-1"] ⟨failBeh, failBeh, failBeh, failBeh⟩).result.stats.isAllZero := by
  have h := claim_C1_result_invariants ["run-1"] ⟨failBeh, failBeh, failBeh, failBeh⟩
  exact h.2 (by decide) (by decide) (by decide) (by decide) (by decide)

/-- C3: for every combination of the four upstream outcomes (built
from success flags, with full payloads on success), the merged stats
equal the spec's reference merge: single-source fields are the
provider's value on success and zero otherwise, email-sending fields
are the sum of the two delivery providers with a failed provider
contributing zero; when all four succeed, `errors` is empty.  The
final conjuncts check the claim's concrete 5/4/9 examples. -/
theorem claim_C3_additive_merge (aOk eOk pOk iOk : Bool) (a g : Nat)
    (p i : SendingNat) (r : String) (rs : List String) :
    ((getAggregatedStats (r :: rs) (flagEnv aOk eOk pOk iOk a g p i)).result.stats =
      refMergeStats aOk eOk pOk iOk a g p i) ∧
    (aOk = true → eOk = true → pOk = true → iOk = true →
      (getAggregatedStats (r :: rs) (flagEnv aOk eOk pOk iOk a g p i)).result.errors = []) ∧
    (getAggregatedStats ["run-1"]
        (flagEnv true true true false 0 0 ⟨5, 0, 0, 0, 0, 0, 0, 0, 0, 0⟩
          ⟨4, 0, 0, 0, 0, 0, 0, 0, 0, 0⟩)).result.stats.emailsSent = some 5 ∧
    (getAggregatedStats ["run-1"]
        (flagEnv true true false true 0 0 ⟨5, 0, 0, 0, 0, 0, 0, 0, 0, 0⟩
          ⟨4, 0, 0, 0, 0, 0, 0, 0, 0, 0⟩)).result.stats.emailsSent = some 4 ∧
    (getAggregatedStats ["run-1"]
        (flagEnv true true true true 0 0 ⟨5, 0, 0, 0, 0, 0, 0, 0, 0, 0⟩
          ⟨4, 0, 0, 0, 0, 0, 0, 0, 0, 0⟩)).result.stats.emailsSent = some 9 := by
  refine ⟨?_, ?_, by decide, by decide, by decide⟩
  · cases aOk <;> cases eOk <;> cases pOk <;> cases iOk <;>
      (unfold getAggregatedStats
       rw [if_neg (List.cons_ne_nil r rs)]
       simp [flagEnv, fetchStats_okBeh, fetchStats_failBeh, addSendingStats,
         jsAdd, EMPTY_SENDING_STATS, SendingNat.toPayload, refMergeStats])
  · intro h1 h2 h3 h4
    subst h1; subst h2; subst h3; subst h4
    unfold getAggregatedStats
    rw [if_neg (List.cons_ne_nil r rs)]
    simp [flagEnv, fetchStats_okBeh, errorOf]

/-- Witness for C3: all four upstreams succeed, errors is empty. -/
theorem claim_C3_witness :
    (getAggregatedStats ["run-1"]
        (flagEnv true true true true 10 8 ⟨5, 3, 1, 1, 0, 1, 0, 0, 0, 0⟩
          ⟨4, 2, 1, 0, 1, 0, 0, 0, 0, 0⟩)).result.errors = [] := by
  have h := claim_C3_additive_merge true true true true 10 8
    ⟨5, 3, 1, 1, 0, 1, 0, 0, 0, 0⟩ ⟨4, 2, 1, 0, 1, 0, 0, 0, 0, 0⟩ "run-1" []
  exact h.2.1 rfl rfl rfl rfl

/-- C7: when exactly one upstream fails and the other three succeed
with full payloads, the errors list names exactly the failed provider,
and the merged stats equal the all-success reference merge with only
the failed provider's contribution replaced by zero. -/
theorem claim_C7_single_failure (a g : Nat) (p i : SendingNat)
    (r : String) (rs : List String) :
    (∀ fb : FetchBehavior ApolloStats,
      (fetchStats ApolloStats "apollo" fb).isOk = false →
      (getAggregatedStats (r :: rs)
          { successEnv a g p i with apollo := fb }).result.errors.map
        (fun x => x.service) = ["apollo"] ∧
      (getAggregatedStats (r :: rs)
          { successEnv a g p i with apollo := fb }).result.stats =
        refMergeStats false true true true a g p i) ∧
    (∀ fb : FetchBehavior EmailGenStats,
      (fetchStats EmailGenStats "emailgen" fb).isOk = false →
      (getAggregatedStats (r :: rs)
          { successEnv a g p i with emailgen := fb }).result.errors.map
        (fun x => x.service) = ["emailgen"] ∧
      (getAggregatedStats (r :: rs)
          { successEnv a g p i with emailgen := fb }).result.stats =
        refMergeStats true false true true a g p i) ∧
    (∀ fb : FetchBehavior EmailSendingStats,
      (fetchStats EmailSendingStats "postmark" fb).isOk = false →
      (getAggregatedStats (r :: rs)
          { successEnv a g p i with postmark := fb }).result.errors.map
        (fun x => x.service) = ["postmark"] ∧
      (getAggregatedStats (r :: rs)
          { successEnv a g p i with postmark := fb }).result.stats =
        refMergeStats true true false true a g p i) ∧
    (∀ fb : FetchBehavior EmailSendingStats,
      (fetchStats EmailSendingStats "instantly" fb).isOk = false →
      (getAggregatedStats (r :: rs)
          { successEnv a g p i with instantly := fb }).result.errors.map
        (fun x => x.service) = ["instantly"] ∧
      (getAggregatedStats (r :: rs)
          { successEnv a g p i with instantly := fb }).result.stats =
        refMergeStats true true true false a g p i) := by
  refine ⟨?_, ?_, ?_, ?_⟩ <;>
    (intro fb h
     obtain ⟨m, hm⟩ := fetchStats_not_ok h
     unfold getAggregatedStats
     rw [if_neg (List.cons_ne_nil r rs)]
     simp [successEnv, hm, fetchStats_okBeh, errorOf, addSendingStats,
       jsAdd, EMPTY_SENDING_STATS, SendingNat.toPayload, refMergeStats])

/-- Witness for C7: postmark fails with HTTP 500, the rest succeed. -/
theorem claim_C7_witness :
    (getAggregatedStats ["run-1"]
        { successEnv 10 8 ⟨5, 3, 1, 1, 0, 1, 0, 0, 0, 0⟩
            ⟨4, 2, 1, 0, 1, 0, 0, 0, 0, 0⟩ with
          postmark := failBeh }).result.errors.map (fun x => x.service) =
      ["postmark"] ∧
    (getAggregatedStats ["run-1"]
        { successEnv 10 8 ⟨5, 3, 1, 1, 0, 1, 0, 0, 0, 0⟩
            ⟨4, 2, 1, 0, 1, 0, 0, 0, 0, 0⟩ with
          postmark := failBeh }).result.stats =
      refMergeStats true true false true 10 8 ⟨5, 3, 1, 1, 0, 1, 0, 0, 0, 0⟩
        ⟨4, 2, 1, 0, 1, 0, 0, 0, 0, 0⟩ := by
  have h := claim_C7_single_failure 10 8 ⟨5, 3, 1, 1, 0, 1, 0, 0, 0, 0⟩
    ⟨4, 2, 1, 0, 1, 0, 0, 0, 0, 0⟩ "run-1" []
  exact h.2.2.1 failBeh (by decide)

/-- C8: the errors list of a dispatching aggregation call is exactly
the failed upstream outcomes' entries in the fixed dispatch order
apollo, emailgen, postmark, instantly, so the error sequence is
determined by the upstream outcomes. -/
theorem claim_C8_deterministic_error_order (r : String) (rs : List String)
    (env : UpstreamEnv) :
    (getAggregatedStats (r :: rs) env).result.errors =
      (upstreamErrEntries env).reduceOption ∧
    (getAggregatedStats (r :: rs) env).result.errors.map (fun x => x.service) =
      (upstreamOkFlags env).filterMap
        (fun f => if f.1 = true then none else some f.2) := by
  rcases fetchStats_ok_or_err ApolloStats "apollo" env.apollo with
    ⟨da, ha⟩ | ⟨ma, ha⟩ <;>
  rcases fetchStats_ok_or_err EmailGenStats "emailgen" env.emailgen with
    ⟨de, he⟩ | ⟨mg, he⟩ <;>
  rcases fetchStats_ok_or_err EmailSendingStats "postmark" env.postmark with
    ⟨dp, hp⟩ | ⟨mp, hp⟩ <;>
  rcases fetchStats_ok_or_err EmailSendingStats "instantly" env.instantly with
    ⟨di, hi⟩ | ⟨mi, hi⟩ <;>
  (constructor <;>
    (unfold getAggregatedStats
     rw [if_neg (List.cons_ne_nil r rs)]
     simp [upstreamErrEntries, upstreamOkFlags, ha, he, hp, hi, errorOf,
       ServiceResult.errEntry, ServiceResult.isOk, List.reduceOption]))

/-- C4 counterexample: postmark succeeds with its `emailsSent` counter
absent while instantly succeeds reporting 4.  The claim predicts a
merged `emailsSent` of 4 (the other provider's contribution alone) or
0; the code instead propagates the absent operand through JavaScript
addition, making the merged field `NaN` (modelled as `none`), while
indeed not marking the upstream as failed. -/
theorem claim_C4_counterexample :
    (getAggregatedStats ["run-1"]
        { successEnv 10 8 ⟨5, 3, 1, 1, 0, 1, 0, 0, 0, 0⟩
            ⟨4, 2, 1, 0, 1, 0, 0, 0, 0, 0⟩ with
          postmark := okBeh ⟨none, some 3, some 1, some 1, some 0,
            some 1, some 0, some 0, some 0, some 0⟩ }).result.errors = [] ∧
    (getAggregatedStats ["run-1"]
        { successEnv 10 8 ⟨5, 3, 1, 1, 0, 1, 0, 0, 0, 0⟩
            ⟨4, 2, 1, 0, 1, 0, 0, 0, 0, 0⟩ with
          postmark := okBeh ⟨none, some 3, some 1, some 1, some 0,
            some 1, some 0, some 0, some 0, some 0⟩ }).result.stats.emailsSent ≠
      some 4 ∧
    (getAggregatedStats ["run-1"]
        { successEnv 10 8 ⟨5, 3, 1, 1, 0, 1, 0, 0, 0, 0⟩
            ⟨4, 2, 1, 0, 1, 0, 0, 0, 0, 0⟩ with
          postmark := okBeh ⟨none, some 3, some 1, some 1, some 0,
            some 1, some 0, some 0, some 0, some 0⟩ }).result.stats.emailsSent ≠
      some 0 := by
  decide

/-- C4 (amended): an upstream that succeeds with an absent counter is
never marked as failed, and the absent counter defaults to zero for
the single-source fields (`leadsFound`, `emailsGenerated`, guarded by
a nullish-coalescing fallback); for the email-sending counters an
absent field in a successful payload instead propagates as a
non-numeric `NaN` through the additive merge. -/
theorem claim_C4_amended (sc tp : JsNum) (p : EmailSendingStats)
    (i : SendingNat) (r : String) (rs : List String) :
    ((getAggregatedStats (r :: rs)
        ⟨okBeh ⟨none, sc, tp⟩, okBeh ⟨none⟩, okBeh p, okBeh i.toPayload⟩).result.stats.leadsFound =
      some 0) ∧
    ((getAggregatedStats (r :: rs)
        ⟨okBeh ⟨none, sc, tp⟩, okBeh ⟨none⟩, okBeh p, okBeh i.toPayload⟩).result.stats.emailsGenerated =
      some 0) ∧
    ((getAggregatedStats (r :: rs)
        ⟨okBeh ⟨none, sc, tp⟩, okBeh ⟨none⟩, okBeh p, okBeh i.toPayload⟩).result.errors =
      []) ∧
    (p.emailsSent = none →
      (getAggregatedStats (r :: rs)
        ⟨okBeh ⟨none, sc, tp⟩, okBeh ⟨none⟩, okBeh p, okBeh i.toPayload⟩).result.stats.emailsSent =
      none) := by
  refine ⟨?_, ?_, ?_, ?_⟩ <;>
    first
      | (unfold getAggregatedStats
         rw [if_neg (List.cons_ne_nil r rs)]
         simp [fetchStats_okBeh, errorOf, addSendingStats, jsAdd]
         done)
      | (intro h
         unfold getAggregatedStats
         rw [if_neg (List.cons_ne_nil r rs)]
         simp [fetchStats_okBeh, errorOf, addSendingStats, jsAdd, h])

/-- Witness for C4 (amended) with a concrete absent-field payload. -/
theorem claim_C4_witness :
    (getAggregatedStats ["run-1"]
        ⟨okBeh ⟨none, some 2, some 50⟩, okBeh ⟨none⟩,
         okBeh ⟨none, some 3, some 1, some 1, some 0, some 1, some 0,
           some 0, some 0, some 0⟩,
         okBeh (SendingNat.toPayload ⟨4, 2, 1, 0, 1, 0, 0, 0, 0, 0⟩)⟩).result.stats.leadsFound =
      some 0 ∧
    (getAggregatedStats ["run-1"]
        ⟨okBeh ⟨none, some 2, some 50⟩, okBeh ⟨none⟩,
         okBeh ⟨none, some 3, some 1, some 1, some 0, some 1, some 0,
           some 0, some 0, some 0⟩,
         okBeh (SendingNat.toPayload ⟨4, 2, 1, 0, 1, 0, 0, 0, 0, 0⟩)⟩).result.stats.emailsSent =
      none := by
  have h := claim_C4_amended (some 2) (some 50)
    ⟨none, some 3, some 1, some 1, some 0, some 1, some 0, some 0, some 0, some 0⟩
    ⟨4, 2, 1, 0, 1, 0, 0, 0, 0, 0⟩ "run-1" []
  exact ⟨h.1, h.2.2.2 rfl⟩

/-! ### Lemmas for the company aggregation -/

/-- Membership through the first-occurrence fold. -/
theorem firstOcc_fold_mem (xs : List String) :
    ∀ (acc : List String) (y : String),
      (y ∈ xs.foldl (fun a n => if n ∈ a then a else a ++ [n]) acc) ↔
        (y ∈ acc ∨ y ∈ xs) := by
  induction xs with
  | nil => intro acc y; simp
  | cons x xs ih =>
      intro acc y
      simp only [List.foldl_cons]
      rw [ih]
      by_cases hx : x ∈ acc
      · simp only [if_pos hx, List.mem_cons]
        constructor
        · rintro (h | h)
          · exact Or.inl h
          · exact Or.inr (Or.inr h)
        · rintro (h | h | h)
          · exact Or.inl h
          · subst h; exact Or.inl hx
          · exact Or.inr h
      · simp only [if_neg hx, List.mem_append, List.mem_singleton,
          List.mem_cons]
        tauto

/-- The fold `firstOcc` keeps exactly the elements of its input. -/
theorem mem_firstOcc (xs : List String) (y : String) :
    y ∈ firstOcc xs ↔ y ∈ xs := by
  unfold firstOcc
  rw [firstOcc_fold_mem]
  simp

/-- Appending one element to the input of `firstOcc`. -/
theorem firstOcc_append_singleton (xs : List String) (x : String) :
    firstOcc (xs ++ [x]) =
      if x ∈ firstOcc xs then firstOcc xs else firstOcc xs ++ [x] := by
  unfold firstOcc
  rw [List.foldl_append]
  rfl

/-- A reference entry is keyed by the name it is built for. -/
theorem refEntry_name (n : String) (ls : List LeadData) :
    (refEntry n ls).name = n := by
  cases ls <;> rfl

/-- The names of the reference aggregation, in order. -/
theorem refEntriesV_names (vs : List LeadData) :
    (refEntriesV vs).map (fun e => e.name) = firstOcc (vs.map nameOf) := by
  unfold refEntriesV
  rw [List.map_map]
  have h : ((fun e : CompanyEntry => e.name) ∘
      fun n => refEntry n (vs.filter (fun l => nameOf l = n))) = id := by
    funext n
    simp [refEntry_name]
  rw [h, List.map_id]

/-- The map-membership test of `insertLead` against the reference
aggregation decides membership in the distinct-name list. -/
theorem any_name_refEntriesV (vs : List LeadData) (n : String) :
    ((refEntriesV vs).any (fun e => e.name = n) = true) ↔
      n ∈ firstOcc (vs.map nameOf) := by
  rw [List.any_eq_true]
  constructor
  · rintro ⟨e, he, hn⟩
    have hn' : e.name = n := by simpa using hn
    have hmem : e.name ∈ (refEntriesV vs).map (fun e => e.name) :=
      List.mem_map_of_mem _ he
    rw [refEntriesV_names, hn'] at hmem
    exact hmem
  · intro hn
    refine ⟨refEntry n (vs.filter (fun l => nameOf l = n)), ?_, ?_⟩
    · unfold refEntriesV
      exact List.mem_map_of_mem _ hn
    · simp [refEntry_name]

/-- Updating a nonempty reference entry for one more lead equals the
reference entry over the extended lead list. -/
theorem bumpEntry_refEntry (n : String) (a : LeadData) (tl : List LeadData)
    (l : LeadData) :
    bumpEntry (refEntry n (a :: tl)) l = refEntry n ((a :: tl) ++ [l]) := by
  simp [bumpEntry, refEntry, List.map_append]

/-- One `insertLead` step on the reference aggregation of an arbitrary
lead list equals the reference aggregation of the extended list, for a
lead with a truthy organization name. -/
theorem insertLead_refEntriesV (vs : List LeadData) (l : LeadData)
    (hl : truthy l.organizationName = true) :
    insertLead (refEntriesV vs) l = refEntriesV (vs ++ [l]) := by
  have hmap : (vs ++ [l]).map nameOf = vs.map nameOf ++ [nameOf l] := by simp
  unfold insertLead
  rw [if_pos hl]
  by_cases hmem : nameOf l ∈ firstOcc (vs.map nameOf)
  · rw [if_pos ((any_name_refEntriesV vs (nameOf l)).mpr hmem)]
    unfold refEntriesV
    rw [hmap, firstOcc_append_singleton, if_pos hmem, List.map_map]
    apply List.map_congr_left
    intro n hn
    simp only [Function.comp_apply, refEntry_name]
    by_cases hne : n = nameOf l
    · have hfl : (vs ++ [l]).filter (fun x => nameOf x = n) =
          vs.filter (fun x => nameOf x = n) ++ [l] := by
        simp [List.filter_append, List.filter_singleton, hne]
      rw [hfl, if_pos hne]
      have hnil : vs.filter (fun x => nameOf x = n) ≠ [] := by
        rw [Ne, List.filter_eq_nil_iff]
        intro hall
        rcases List.mem_map.mp ((mem_firstOcc _ _).mp hn) with ⟨x, hx, hxn⟩
        exact hall x hx (by simp [hxn])
      rcases hcase : vs.filter (fun x => nameOf x = n) with _ | ⟨a, tl⟩
      · exact absurd hcase hnil
      · exact bumpEntry_refEntry n a tl l
    · have hfl : (vs ++ [l]).filter (fun x => nameOf x = n) =
          vs.filter (fun x => nameOf x = n) := by
        have hne' : ¬(nameOf l = n) := fun h => hne h.symm
        simp [List.filter_append, List.filter_singleton, hne']
      rw [hfl, if_neg hne]
  · rw [if_neg (fun h => hmem ((any_name_refEntriesV vs (nameOf l)).mp h))]
    unfold refEntriesV
    rw [hmap, firstOcc_append_singleton, if_neg hmem, List.map_append]
    congr 1
    · apply List.map_congr_left
      intro n hn
      have hne : ¬(nameOf l = n) := by
        intro h
        rw [← h] at hn
        exact hmem hn
      simp [List.filter_append, List.filter_singleton, hne]
    · have hnil : vs.filter (fun x => nameOf x = nameOf l) = [] := by
        rw [List.filter_eq_nil_iff]
        intro x hx hxn
        exact hmem ((mem_firstOcc _ _).mpr
          (List.mem_map.mpr ⟨x, hx, by simpa using hxn⟩))
      simp [List.filter_append, List.filter_singleton, hnil, freshEntry,
        refEntry]

/-- Folding `insertLead` over further leads extends the reference
aggregation, skipping leads with a falsy organization name. -/
theorem foldl_insertLead_refEntriesV (rest : List LeadData) :
    ∀ vs : List LeadData,
      rest.foldl insertLead (refEntriesV vs) =
        refEntriesV (vs ++ validLeads rest) := by
  induction rest with
  | nil => intro vs; simp [validLeads]
  | cons l rest ih =>
      intro vs
      simp only [List.foldl_cons]
      by_cases hl : truthy l.organizationName = true
      · rw [insertLead_refEntriesV vs l hl, ih (vs ++ [l])]
        unfold validLeads
        rw [List.filter_cons, if_pos hl, List.append_assoc]
        rfl
      · have hskip : insertLead (refEntriesV vs) l = refEntriesV vs := by
          unfold insertLead
          rw [if_neg hl]
        rw [hskip, ih vs]
        unfold validLeads
        rw [List.filter_cons, if_neg hl]

/-- C10 counterexample: a lead whose `enrichmentRunId` is the
non-null empty string is dropped from `enrichmentRunIds` by the JS
truthiness check, though the claim says every non-null run id of the
group is collected. -/
theorem claim_C10_counterexample :
    (⟨"lead-1", some "Acme", none, none, none, some ""⟩ :
        LeadData).enrichmentRunId ≠ none ∧
    aggregateCompaniesFromLeads
        [⟨"lead-1", some "Acme", none, none, none, some ""⟩] =
      [⟨"company-0", "Acme", none, none, none, 1, []⟩] := by
  decide

/-- C10 (amended): `aggregateCompaniesFromLeads` ignores every lead
whose organization name is null or empty, and returns exactly one
company per distinct remaining name in first-occurrence order, where
`leadsCount` counts the leads of that name, `enrichmentRunIds` are the
truthy (non-null, non-empty) run ids of those leads in input order,
and `domain`, `industry`, `employeeCount` come from the first lead of
that name with empty strings normalized to null. -/
theorem claim_C10_company_aggregation (leads : List LeadData) :
    aggregateCompaniesFromLeads leads = refCompanies leads := by
  unfold aggregateCompaniesFromLeads refCompanies
  congr 1
  have h := foldl_insertLead_refEntriesV leads []
  simpa [refEntriesV, firstOcc] using h

end CampaignService
